import Mathlib

/-!
Verification development for the dicta streaming-transcription core.

The definitions below are a shallow embedding of the Rust sources
(`src-tauri/src/audio.rs`, `src-tauri/src/realtime.rs`, `src-tauri/src/lib.rs`).
PCM16 samples are modelled as `Int` (every arithmetic step of the embedded code
stays within the `i16`/`i32` ranges, so the `as i16` casts in the source are
lossless and the integer model is exact; Rust's `/` on signed integers
truncates toward zero, which is `Int.tdiv`).  Fallible or panicking code is
modelled with `Option`/`Except`.
-/

namespace Dicta

/-- `usize::MAX + 1`; used to model Rust release-mode wrapping subtraction. -/
def USIZE : Nat := 18446744073709551616

/-- Rust release-mode `a - b` on `usize` (wrapping on underflow). -/
def usizeSub (a b : Nat) : Nat := (a + (USIZE - b % USIZE)) % USIZE

/-- Body of the 16 kHz → 24 kHz loop of `StreamingAudioRecorder::start_streaming`
(audio.rs lines 340-351): for `i` in `0..fuel` starting at index `i0`, read
`curr = mono_data[i]` and `next = mono_data[i + 1]`, push `curr`, push the
interpolated `(curr * 2 + next) / 3`, and push `next` when `i % 2 == 1`.
An out-of-range index access is a panic, modelled as `none`. -/
def resample16kGo (mono : List Int) : Nat → Nat → Option (List Int)
  | _, 0 => some []
  | i, fuel + 1 =>
    match mono[i]?, mono[i + 1]? with
    | some curr, some next =>
      (resample16kGo mono (i + 1) fuel).map (fun rest =>
        curr :: Int.tdiv (curr * 2 + next) 3 ::
          (if i % 2 = 1 then next :: rest else rest))
    | _, _ => none

/-- The 16 kHz branch of the resampler: the Rust loop bound is the `usize`
expression `mono_data.len() - 1`, which wraps on an empty input. -/
def resample16k (mono : List Int) : Option (List Int) :=
  resample16kGo mono 0 (usizeSub mono.length 1)

/-- `Iterator::step_by(step)` over a list, tracking the element index `i`
starting from `i0`: elements at indices divisible by `step` are kept. -/
def stepByGo (step : Nat) : Nat → List Int → List Int
  | _, [] => []
  | i, x :: xs => if i % step = 0 then x :: stepByGo step (i + 1) xs else stepByGo step (i + 1) xs

/-- `mono_data.iter().step_by(step).copied().collect()` (audio.rs line 335). -/
def stepBy (step : Nat) (xs : List Int) : List Int := stepByGo step 0 xs

/-- The rate dispatch of `StreamingAudioRecorder::start_streaming`
(audio.rs lines 329-372).  The final branch of the source performs `f32`
linear interpolation; its result is abstracted as the parameter `lin`
(floating point is outside the integer model), which no claim about the
integer branches depends on. -/
def resampleChunk (lin : List Int → List Int) (nativeRate : Nat) (mono : List Int) :
    Option (List Int) :=
  if nativeRate = 24000 then
    some mono
  else if 24000 < nativeRate ∧ nativeRate % 24000 = 0 then
    some (stepBy (nativeRate / 24000) mono)
  else if nativeRate = 16000 then
    resample16k mono
  else
    some (lin mono)

/-- `data.chunks_exact(k)`: consecutive disjoint blocks of length `k`, the
remainder dropped.  The list length bounds the recursion depth. -/
def chunksExactGo (k : Nat) : Nat → List Int → List (List Int)
  | 0, _ => []
  | fuel + 1, xs => if k ≤ xs.length ∧ k ≠ 0 then xs.take k :: chunksExactGo k fuel (xs.drop k) else []

/-- `data.chunks_exact(k)` of audio.rs line 320. -/
def chunksExact (k : Nat) (xs : List Int) : List (List Int) := chunksExactGo k xs.length xs

/-- Multi-channel → mono reduction of the streaming callback (audio.rs lines
317-326): channel count 1 is a passthrough, otherwise each frame is averaged
(`i32` sum, truncating division by the channel count). -/
def monoMix (channels : Nat) (data : List Int) : List Int :=
  if channels = 1 then data
  else (chunksExact channels data).map (fun frame => Int.tdiv frame.sum channels)

/-- The streaming audio callback (audio.rs lines 314-378).  The result is
`none` on a panic inside the callback; otherwise `some sent` where `sent` is
the chunk handed to the channel, if any (`tx.send` is guarded by
`!resampled.is_empty()`, and nothing runs when the recording flag is off). -/
def audioCallback (lin : List Int → List Int) (recording : Bool) (channels nativeRate : Nat)
    (data : List Int) : Option (Option (List Int)) :=
  if recording then
    match resampleChunk lin nativeRate (monoMix channels data) with
    | none => none
    | some resampled => some (if resampled.isEmpty then none else some resampled)
  else
    some none

/-! ## Protocol listener (`realtime.rs`) -/

/-- The fields of an inbound JSON event that `listen_for_events` reads
(realtime.rs lines 146-190).  A field is `none` when absent or not a string
(`as_str()` returning `None`). -/
structure InFrame where
  etype : String
  delta : Option String
  transcript : Option String
  itemId : Option String
  errorMessage : Option String
deriving DecidableEq

/-- An element of the websocket read stream as `listen_for_events` sees it:
`Ok(Message::Text)` carries `none` when `serde_json::from_str` fails,
`other` covers the remaining `Ok` message kinds (`_ => {}` arm), and
`err` is a socket-level `Err(e)`. -/
inductive WsMsg where
  | text (frame : Option InFrame)
  | close
  | other
  | err (e : String)

/-- The event type of realtime.rs lines 219-223.  The source enum has
exactly these two variants. -/
inductive TranscriptionEvent where
  | delta (item_id delta : String)
  | completed (item_id transcript : String)
deriving DecidableEq

/-- Events handed to the `on_event` callback for one inbound text frame
(the `match event_type` of realtime.rs lines 150-190).  Every arm other than
the two transcription arms only logs, so it produces no callback event. -/
def handleTextFrame (f : InFrame) : List TranscriptionEvent :=
  match f.etype with
  | "conversation.item.input_audio_transcription.delta" =>
    match f.delta with
    | some d => [TranscriptionEvent.delta (f.itemId.getD ("")) d]
    | none => []
  | "conversation.item.input_audio_transcription.completed" =>
    match f.transcript with
    | some t => [TranscriptionEvent.completed (f.itemId.getD ("")) t]
    | none => []
  | "error" => []                             -- logged, loop continues
  | "session.created" => []
  | "session.updated" => []
  | "input_audio_buffer.speech_started" => [] -- logged only, nothing dispatched
  | "input_audio_buffer.speech_stopped" => [] -- logged only, nothing dispatched
  | "input_audio_buffer.committed" => []
  | _ => []                                   -- unknown type: logged and ignored

/-- `RealtimeSession::listen_for_events` (realtime.rs lines 138-206) over a
finite read stream: returns the events dispatched to the callback, in order,
and the function's `Result`.  `Close` and stream end (`None`) break the loop
with `Ok(())`; a socket-level error returns `Err` at once. -/
def listen_for_events : List WsMsg → List TranscriptionEvent × Except String Unit
  | [] => ([], Except.ok ())
  | WsMsg.text none :: rest => listen_for_events rest
  | WsMsg.text (some f) :: rest =>
    let r := listen_for_events rest
    (handleTextFrame f ++ r.1, r.2)
  | WsMsg.close :: _ => ([], Except.ok ())
  | WsMsg.other :: rest => listen_for_events rest
  | WsMsg.err e :: _ => ([], Except.error ("WebSocket error: " ++ e))

/-! ## Stop/drain sequence and session task (`lib.rs`) -/

/-- `new_transcription_arrived` (lib.rs lines 1008-1012): compares the latest
`last_transcription_time` against its snapshot taken at stop time. -/
def newTranscriptionArrived (latest before : Option Nat) : Bool :=
  match latest, before with
  | some l, some b => decide (b < l)
  | some _, none => true
  | _, _ => false

/-- Modelled from the spec: the drain loop exits early exactly when the
current timestamp is strictly newer than the snapshot, where a transition
from no timestamp to some timestamp counts as newer. -/
def strictlyNewer (latest snapshot : Option Nat) : Bool :=
  Option.elim latest false (fun l =>
    Option.elim snapshot true (fun b => decide (b < l)))

/-- Externally visible steps of the stop sequence, in program order. -/
inductive StopAction where
  | commitAudio
  | pollSleep (ms : Nat)
  | settleSleep (ms : Nat)
  | abortAudioTask
  | abortListenTask
  | clearRecordingFlag
deriving DecidableEq

/-- The bounded wait loop of lib.rs lines 1001-1025 (the external variant at
lines 1085-1105 has the same shape with constants 100/4500/200).  Each list
entry is one poll observation: the value read from `last_transcription_time`
and the elapsed milliseconds since stop.  Returns the performed sleeps and
`some true` on early exit (new transcription, followed by the settle sleep),
`some false` on timeout, `none` if the observations ran out. -/
def drainLoop (before : Option Nat) (pollMs maxWaitMs settleMs : Nat) :
    List (Option Nat × Nat) → List StopAction × Option Bool
  | [] => ([], none)
  | (latest, elapsed) :: rest =>
    if newTranscriptionArrived latest before then
      ([StopAction.pollSleep pollMs, StopAction.settleSleep settleMs], some true)
    else if maxWaitMs < elapsed then
      ([StopAction.pollSleep pollMs], some false)
    else
      let r := drainLoop before pollMs maxWaitMs settleMs rest
      (StopAction.pollSleep pollMs :: r.1, r.2)

/-- The post-monitor stop sequence of the realtime session task (lib.rs lines
984-1036): snapshot the speech state, commit + drain only when any speech
occurred (`last_speech_end` recorded or `speech_active` set), then abort the
audio and listen tasks and clear the recording flag. -/
def stopSequence (speechActive : Bool) (lastSpeechEnd before : Option Nat)
    (obs : List (Option Nat × Nat)) : List StopAction :=
  let hadAnySpeech := lastSpeechEnd.isSome || speechActive
  (if hadAnySpeech then
    StopAction.commitAudio :: (drainLoop before 80 3500 150 obs).1
  else []) ++
    [StopAction.abortAudioTask, StopAction.abortListenTask, StopAction.clearRecordingFlag]

/-- Environment of one run of the spawned session task: which fallible steps
succeed, and the speech/timestamp state it finds at stop time. -/
structure SessionEnv where
  connectOk : Bool
  configureOk : Bool
  streamStartOk : Bool
  speechActive : Bool
  lastSpeechEnd : Option Nat
  transcriptionBefore : Option Nat
  drainObs : List (Option Nat × Nat)

/-- The terminal actions of the spawned session task of
`start_realtime_recording` (lib.rs lines 765-1043): a connect failure (line
1040) and a configure failure (line 773) clear the recording flag and return;
a stream-start failure makes the capture thread clear the flag (line 793),
after which the monitor loop observes the cleared flag and the task still
runs the stop sequence; a normal end runs the stop sequence, whose last step
clears the flag (line 1036). -/
def sessionTask (env : SessionEnv) : List StopAction :=
  if env.connectOk = false then
    [StopAction.clearRecordingFlag]
  else if env.configureOk = false then
    [StopAction.clearRecordingFlag]
  else
    (if env.streamStartOk then [] else [StopAction.clearRecordingFlag]) ++
      stopSequence env.speechActive env.lastSpeechEnd env.transcriptionBefore env.drainObs

/-! ## Device resolution (`audio.rs` lines 6-58) -/

/-- An input device; `name` is `none` when `device.name()` fails. -/
structure AudioDevice where
  name : Option String
deriving DecidableEq

/-- The audio host: its enumerable input devices in order, and the system
default input device if any. -/
structure AudioHost where
  devices : List AudioDevice
  defaultDevice : Option AudioDevice

/-- Rust `str::trim`: drop leading and trailing whitespace.  Modelled over
the character list so that it evaluates inside the kernel. -/
def rustTrim (s : String) : String :=
  String.mk (((s.data.dropWhile Char.isWhitespace).reverse.dropWhile Char.isWhitespace).reverse)

/-- The per-device test of audio.rs line 31: exact name match or
trimmed-whitespace match (devices whose name cannot be read never match). -/
def deviceMatches (requested : String) (d : AudioDevice) : Bool :=
  match d.name with
  | some n => n == requested || rustTrim n == rustTrim requested
  | none => false

/-- `get_input_device_by_name` (audio.rs lines 6-58): with a requested name,
scan the devices in order and return the first that matches exactly or after
trimming; otherwise (and when no name is requested) fall back to the system
default; the absence of a default is the error. -/
def get_input_device_by_name (host : AudioHost) (device_name : Option String) :
    Except String AudioDevice :=
  match device_name with
  | some name =>
    match host.devices.find? (deviceMatches name) with
    | some d => Except.ok d
    | none =>
      match host.defaultDevice with
      | some d => Except.ok d
      | none => Except.error ("No input device available")
  | none =>
    match host.defaultDevice with
    | some d => Except.ok d
    | none => Except.error ("No input device available")

/-- Modelled from the spec: resolution by exact name match first over the
whole device list, else trimmed-whitespace match, else the system default. -/
def resolveDeviceSpec (host : AudioHost) (device_name : Option String) :
    Except String AudioDevice :=
  match device_name with
  | some name =>
    match host.devices.find? (fun d => d.name == some name) with
    | some d => Except.ok d
    | none =>
      match host.devices.find? (fun d => d.name.map rustTrim == some (rustTrim name)) with
      | some d => Except.ok d
      | none =>
        match host.defaultDevice with
        | some d => Except.ok d
        | none => Except.error ("No input device available")
  | none =>
    match host.defaultDevice with
    | some d => Except.ok d
    | none => Except.error ("No input device available")

/-! ## Re-entrancy of `start_realtime_recording` (lib.rs lines 721-744) -/

/-- The session-state fields of `AppState` that the realtime recording
commands touch (lib.rs lines 135-144), timestamps as milliseconds. -/
structure SessionState where
  isRecording : Bool
  currentSessionTranscript : String
  speechActive : Bool
  lastSpeechEnd : Option Nat
  lastTranscriptionTime : Option Nat
  recordingStartTime : Option Nat
deriving DecidableEq

/-- The synchronous prefix of `start_realtime_recording` (lib.rs lines
721-744): under the held lock, an in-progress recording returns the
"Already recording" error before any mutation; otherwise the flag and start
time are set and the per-session state is reset. -/
def start_realtime_recording (now : Nat) (st : SessionState) :
    SessionState × Except String String :=
  if st.isRecording then
    (st, Except.error ("Already recording"))
  else
    ({ isRecording := true
       currentSessionTranscript := ""
       speechActive := false
       lastSpeechEnd := none
       lastTranscriptionTime := none
       recordingStartTime := some now },
     Except.ok ("Realtime recording started"))

/-! ## Concrete instances used by the closed theorems -/

/-- An inbound `input_audio_buffer.speech_started` event frame. -/
def speechStartedFrame : InFrame :=
  { etype := "input_audio_buffer.speech_started", delta := none, transcript := none,
    itemId := none, errorMessage := none }

/-- An inbound `input_audio_buffer.speech_stopped` event frame. -/
def speechStoppedFrame : InFrame :=
  { etype := "input_audio_buffer.speech_stopped", delta := none, transcript := none,
    itemId := none, errorMessage := none }

/-- An inbound server-reported application `error` event frame. -/
def errorFrame : InFrame :=
  { etype := "error", delta := none, transcript := none, itemId := none,
    errorMessage := some ("Unknown error") }

/-- An inbound transcription delta frame carrying the text `"he"`. -/
def deltaFrame : InFrame :=
  { etype := "conversation.item.input_audio_transcription.delta", delta := some ("he"),
    transcript := none, itemId := some ("item_1"), errorMessage := none }

/-- An inbound frame of a message type the listener does not know. -/
def unknownFrame : InFrame :=
  { etype := "response.created", delta := none, transcript := none, itemId := none,
    errorMessage := none }

/-- A host on which a trimmed-only match precedes an exact match: the device
list holds `"mic "` (trailing blank) before `"mic"`, and a default exists. -/
def c6Host : AudioHost :=
  { devices := [{ name := some ("mic ") }, { name := some ("mic") }],
    defaultDevice := some { name := some ("dflt") } }

/-- A host with one device named `"usb"` and a default device `"dflt"`. -/
def c6WitnessHost : AudioHost :=
  { devices := [{ name := some ("usb") }],
    defaultDevice := some { name := some ("dflt") } }

/-! ## Helper lemmas -/

theorem resample16kGo_none_of_oob (mono : List Int) (i fuel : Nat)
    (h : mono[i]? = none) (hf : fuel ≠ 0) : resample16kGo mono i fuel = none := by
  cases fuel with
  | zero => cases hf rfl
  | succ f => simp [resample16kGo, h]

theorem resample16kGo_isSome (mono : List Int) :
    ∀ (fuel i : Nat), i + fuel < mono.length → (resample16kGo mono i fuel).isSome = true := by
  intro fuel
  induction fuel with
  | zero => intro i _; simp [resample16kGo]
  | succ f ih =>
    intro i h
    have hi : i < mono.length := by omega
    have hi1 : i + 1 < mono.length := by omega
    have h1 : mono[i]? = some mono[i] := List.getElem?_eq_getElem hi
    have h2 : mono[i + 1]? = some mono[i + 1] := List.getElem?_eq_getElem hi1
    have h3 := ih (i + 1) (by omega)
    simp [resample16kGo, h1, h2, h3]

theorem usizeSub_one (n : Nat) (h1 : 1 ≤ n) (h2 : n < USIZE) : usizeSub n 1 = n - 1 := by
  unfold usizeSub USIZE at *
  omega

theorem newTranscriptionArrived_eq_strictlyNewer (latest before : Option Nat) :
    newTranscriptionArrived latest before = strictlyNewer latest before := by
  cases latest <;> cases before <;> rfl

theorem stepByGo_two_length (xs : List Int) :
    ∀ i, (stepByGo 2 i xs).length = if i % 2 = 0 then (xs.length + 1) / 2 else xs.length / 2 := by
  induction xs with
  | nil => intro i; by_cases h : i % 2 = 0 <;> simp [stepByGo, h]
  | cons x xs ih =>
    intro i
    by_cases h : i % 2 = 0
    · have h1 : ¬ (i + 1) % 2 = 0 := by omega
      simp [stepByGo, h, ih (i + 1), h1]
      omega
    · have h1 : (i + 1) % 2 = 0 := by omega
      simp [stepByGo, h, ih (i + 1), h1]

theorem stepByGo_two_congr (xs : List Int) :
    ∀ i j, i % 2 = j % 2 → stepByGo 2 i xs = stepByGo 2 j xs := by
  induction xs with
  | nil => intro i j _; rfl
  | cons x xs ih =>
    intro i j h
    have h2 : (i + 1) % 2 = (j + 1) % 2 := by omega
    by_cases hi : i % 2 = 0
    · have hj : j % 2 = 0 := by omega
      simp [stepByGo, hi, hj, ih (i + 1) (j + 1) h2]
    · have hj : ¬ j % 2 = 0 := by omega
      simp [stepByGo, hi, hj, ih (i + 1) (j + 1) h2]

theorem stepBy_two_cons_cons (a b : Int) (xs : List Int) :
    stepBy 2 (a :: b :: xs) = a :: stepBy 2 xs := by
  unfold stepBy
  simp [stepByGo]
  exact stepByGo_two_congr xs 2 0 rfl

theorem stepBy_two_get (xs : List Int) : ∀ i, (stepBy 2 xs)[i]? = xs[2 * i]? := by
  match xs with
  | [] => intro i; simp [stepBy, stepByGo]
  | [a] =>
    intro i
    match i with
    | 0 => simp [stepBy, stepByGo]
    | n + 1 =>
      have h2 : 2 * (n + 1) = 2 * n + 1 + 1 := by ring
      rw [h2]
      simp [stepBy, stepByGo]
  | a :: b :: xs =>
    intro i
    rw [stepBy_two_cons_cons]
    match i with
    | 0 => simp
    | n + 1 =>
      have h2 : 2 * (n + 1) = 2 * n + 1 + 1 := by ring
      rw [h2]
      simp only [List.getElem?_cons_succ]
      exact stepBy_two_get xs n

theorem find?_first_of_prefix_none (p : AudioDevice → Bool) :
    ∀ (l₁ : List AudioDevice) (d : AudioDevice) (l₂ : List AudioDevice),
      p d = true → (∀ e ∈ l₁, p e = false) → (l₁ ++ d :: l₂).find? p = some d := by
  intro l₁
  induction l₁ with
  | nil => intro d l₂ hd _; simp [List.find?_cons_of_pos, hd]
  | cons a l ih =>
    intro d l₂ hd h
    have ha : p a = false := h a (by simp)
    rw [List.cons_append, List.find?_cons_of_neg _ (by simp [ha])]
    exact ih d l₂ hd (fun e he => h e (by simp [he]))

theorem stopSequence_getLast (sa : Bool) (lse before : Option Nat)
    (obs : List (Option Nat × Nat)) :
    (stopSequence sa lse before obs).getLast? = some StopAction.clearRecordingFlag := by
  unfold stopSequence
  rw [show [StopAction.abortAudioTask, StopAction.abortListenTask,
        StopAction.clearRecordingFlag] =
      [StopAction.abortAudioTask, StopAction.abortListenTask] ++
        [StopAction.clearRecordingFlag] from rfl]
  rw [← List.append_assoc, List.getLast?_concat]

/-! ## Claim theorems -/

/-- C1: evaluation of the 16 kHz resampler at the failing input
`[30, 60, 90, 120]`.  The interpolated samples do follow the documented
`(2 * curr + next) / 3` scheme, but the branch emits seven samples (with the
sample at index 2 duplicated), not the `floor(4 * 3 / 2) = 6` that the claim,
the code's own `Output 3 samples for every 2 input samples` comment, and its
`with_capacity((len * 3) / 2)` all state. -/
theorem c1_resample16k_eval :
    resample16k [30, 60, 90, 120] = some [30, 40, 60, 70, 90, 90, 100] ∧
      (([30, 40, 60, 70, 90, 90, 100] : List Int).length == 4 * 3 / 2) = false :=
  ⟨by decide, by decide⟩

/-- C2: evaluation of `listen_for_events` on a concrete read stream.  A
`speech_started` / `speech_stopped` frame dispatches nothing to the callback
(the source `TranscriptionEvent` enum has no such variants), a server-reported
`error` event does not terminate the loop (the delta after it is still
dispatched), unknown types are ignored, `Close` ends the loop with `Ok` (the
delta after it is not dispatched), and a socket-level error terminates the
loop with `Err`. -/
theorem c2_listen_dispatch_eval :
    listen_for_events
        [WsMsg.text (some speechStartedFrame), WsMsg.text (some speechStoppedFrame),
         WsMsg.text (some errorFrame), WsMsg.text (some deltaFrame),
         WsMsg.text (some unknownFrame), WsMsg.close, WsMsg.text (some deltaFrame)] =
      ([TranscriptionEvent.delta ("item_1") ("he")], Except.ok ()) ∧
    listen_for_events [WsMsg.err ("connection reset")] =
      ([], Except.error ("WebSocket error: connection reset")) :=
  ⟨rfl, rfl⟩

/-- C3: when `speech_active` is false and `last_speech_end` is `None` at stop
time, the stop sequence is exactly abort-audio-task, abort-listen-task,
clear-recording-flag: `commit_audio` is never called and no poll or settle
wait is performed. -/
theorem c3_stop_without_speech (before : Option Nat) (obs : List (Option Nat × Nat)) :
    stopSequence false none before obs =
      [StopAction.abortAudioTask, StopAction.abortListenTask, StopAction.clearRecordingFlag] ∧
    (stopSequence false none before obs).contains StopAction.commitAudio = false ∧
    ∀ ms, (stopSequence false none before obs).contains (StopAction.pollSleep ms) = false ∧
      (stopSequence false none before obs).contains (StopAction.settleSleep ms) = false := by
  have h : stopSequence false none before obs =
      [StopAction.abortAudioTask, StopAction.abortListenTask,
       StopAction.clearRecordingFlag] := by
    simp [stopSequence]
  refine ⟨h, by rw [h]; rfl, fun ms => ⟨by rw [h]; rfl, by rw [h]; rfl⟩⟩

/-- C4: the post-stop drain.  The loop's exit test agrees with the spec's
predicate (strictly newer timestamp, where none-to-some counts as newer); one
poll step exits early with the settle sleep exactly when that predicate
holds, times out when the elapsed time exceeds the bound, and otherwise
continues; and in the speech-occurred case the commit precedes the drain,
which is followed only by the task aborts and the flag clear. -/
theorem c4_drain_loop :
    (∀ latest before, newTranscriptionArrived latest before = strictlyNewer latest before) ∧
    (∀ (before : Option Nat) (pollMs maxWaitMs settleMs : Nat) (latest : Option Nat)
        (elapsed : Nat) (rest : List (Option Nat × Nat)),
      drainLoop before pollMs maxWaitMs settleMs ((latest, elapsed) :: rest) =
        if strictlyNewer latest before then
          ([StopAction.pollSleep pollMs, StopAction.settleSleep settleMs], some true)
        else if maxWaitMs < elapsed then
          ([StopAction.pollSleep pollMs], some false)
        else
          (StopAction.pollSleep pollMs :: (drainLoop before pollMs maxWaitMs settleMs rest).1,
            (drainLoop before pollMs maxWaitMs settleMs rest).2)) ∧
    (∀ (lastSpeechEnd before : Option Nat) (obs : List (Option Nat × Nat)),
      stopSequence true lastSpeechEnd before obs =
        StopAction.commitAudio ::
          ((drainLoop before 80 3500 150 obs).1 ++
            [StopAction.abortAudioTask, StopAction.abortListenTask,
             StopAction.clearRecordingFlag])) := by
  refine ⟨newTranscriptionArrived_eq_strictlyNewer, ?_, ?_⟩
  · intro before pollMs maxWaitMs settleMs latest elapsed rest
    rw [← newTranscriptionArrived_eq_strictlyNewer]
    rfl
  · intro lastSpeechEnd before obs
    simp [stopSequence]

/-- C5 counterexample: at native rate 48000 an odd-length input refutes the
claimed output length `floor(n / 2)`: the three-sample chunk `[0, 0, 0]`
decimates to two samples, not `floor(3 / 2) = 1`. -/
theorem c5_counterexample :
    Option.map List.length (resampleChunk (fun _ => []) 48000 [0, 0, 0]) = some 2 ∧
      ((2 : Nat) == 3 / 2) = false :=
  ⟨by decide, by decide⟩

/-- C5 amended: at native rate 48000 the output keeps every 2nd sample
starting with the first (`output[i] = input[2 * i]`) and its length is
`ceil(n / 2) = (n + 1) / 2`. -/
theorem c5_decimation_amended (lin : List Int → List Int) (mono : List Int) :
    resampleChunk lin 48000 mono = some (stepBy 2 mono) ∧
    (stepBy 2 mono).length = (mono.length + 1) / 2 ∧
    ∀ i, (stepBy 2 mono)[i]? = mono[2 * i]? := by
  refine ⟨?_, ?_, stepBy_two_get mono⟩
  · unfold resampleChunk
    norm_num
  · have h := stepByGo_two_length mono 0
    simpa [stepBy] using h

/-- C6 counterexample: resolution is a single pass accepting either an exact
or a trimmed match, so on a host whose device list holds `"mic "` before
`"mic"`, requesting `"mic"` returns the earlier trimmed-only match even
though an exact match exists — refuting exact-match-first priority.  The
spec-style two-phase resolver returns the exact match instead. -/
theorem c6_counterexample :
    get_input_device_by_name c6Host (some ("mic")) = Except.ok { name := some ("mic ") } ∧
    resolveDeviceSpec c6Host (some ("mic")) = Except.ok { name := some ("mic") } ∧
    (AudioDevice.mk (some ("mic ")) == AudioDevice.mk (some ("mic"))) = false :=
  ⟨rfl, rfl, by decide⟩

/-- C6 amended: resolution scans the device list in order and returns the
first device matching the request exactly or after trimming whitespace from
both; when no device matches it falls back to the system default (so a
non-existent requested name yields the default rather than an error); the
terminal error occurs exactly when no device matches and no default input
device exists. -/
theorem c6_resolution_amended (host : AudioHost) (name : String) :
    ((∀ d ∈ host.devices, deviceMatches name d = false) →
      get_input_device_by_name host (some name) =
        (match host.defaultDevice with
         | some d => Except.ok d
         | none => Except.error ("No input device available"))) ∧
    (∀ (l₁ : List AudioDevice) (d : AudioDevice) (l₂ : List AudioDevice),
      host.devices = l₁ ++ d :: l₂ → deviceMatches name d = true →
      (∀ e ∈ l₁, deviceMatches name e = false) →
      get_input_device_by_name host (some name) = Except.ok d) ∧
    (get_input_device_by_name host (some name) = Except.error ("No input device available") ↔
      (∀ d ∈ host.devices, deviceMatches name d = false) ∧ host.defaultDevice = none) := by
  have hnone : (∀ d ∈ host.devices, deviceMatches name d = false) →
      host.devices.find? (deviceMatches name) = none := by
    intro h
    rw [List.find?_eq_none]
    intro x hx
    simp [h x hx]
  refine ⟨?_, ?_, ?_⟩
  · intro h
    simp only [get_input_device_by_name, hnone h]
  · intro l₁ d l₂ hdev hd hpre
    have hf : host.devices.find? (deviceMatches name) = some d := by
      rw [hdev]
      exact find?_first_of_prefix_none _ l₁ d l₂ hd hpre
    simp only [get_input_device_by_name, hf]
  · constructor
    · intro h
      rcases hf : host.devices.find? (deviceMatches name) with _ | d
      · rcases hdd : host.defaultDevice with _ | d
        · refine ⟨?_, rfl⟩
          intro x hx
          have hx2 := List.find?_eq_none.mp hf x hx
          simpa using hx2
        · simp only [get_input_device_by_name, hf, hdd] at h
          exact Except.noConfusion h
      · simp only [get_input_device_by_name, hf] at h
        exact Except.noConfusion h
    · rintro ⟨hall, hdd⟩
      simp only [get_input_device_by_name, hnone hall, hdd]

/-- C6 amended, witness: on a host with one device `"usb"` and default
`"dflt"`, requesting the non-existent name `"nonexistent"` resolves to the
default device. -/
theorem c6_resolution_amended_witness :
    get_input_device_by_name c6WitnessHost (some ("nonexistent")) =
      Except.ok { name := some ("dflt") } :=
  (c6_resolution_amended c6WitnessHost ("nonexistent")).1 (by decide)

/-- C7: in every environment — connect failure, configure failure,
stream-start failure, or a normally ending session — the last externally
visible step of the session task is clearing the recording flag, so no
terminal path returns with the flag still set. -/
theorem c7_recording_flag_cleared (env : SessionEnv) :
    (sessionTask env).getLast? = some StopAction.clearRecordingFlag := by
  unfold sessionTask
  by_cases h1 : env.connectOk = false
  · simp [h1]
  · by_cases h2 : env.configureOk = false
    · simp [h1, h2]
    · have hs := stopSequence_getLast env.speechActive env.lastSpeechEnd
        env.transcriptionBefore env.drainObs
      have hne : stopSequence env.speechActive env.lastSpeechEnd
          env.transcriptionBefore env.drainObs ≠ [] := by
        intro habs
        rw [habs] at hs
        exact Option.noConfusion hs
      rw [if_neg h1, if_neg h2, List.getLast?_append_of_ne_nil _ hne]
      exact hs

/-- C8: every chunk the audio callback hands to the channel is non-empty,
and an empty resampled chunk is dropped (nothing is sent). -/
theorem c8_nonempty_sent :
    (∀ (lin : List Int → List Int) (recording : Bool) (channels nativeRate : Nat)
        (data chunk : List Int),
      audioCallback lin recording channels nativeRate data = some (some chunk) →
        chunk.isEmpty = false) ∧
    (∀ (lin : List Int → List Int) (channels nativeRate : Nat) (data : List Int),
      resampleChunk lin nativeRate (monoMix channels data) = some [] →
        audioCallback lin true channels nativeRate data = some none) := by
  constructor
  · intro lin recording channels nativeRate data chunk h
    unfold audioCallback at h
    cases recording with
    | false => simp at h
    | true =>
      simp only [if_true] at h
      rcases hr : resampleChunk lin nativeRate (monoMix channels data) with _ | r
      · rw [hr] at h
        simp at h
      · rw [hr] at h
        by_cases he : r.isEmpty = true
        · simp [he] at h
        · simp [he] at h
          rw [← h]
          simpa using he
  · intro lin channels nativeRate data h
    unfold audioCallback
    simp [h]

/-- C8 witness: the one-sample chunk sent at native rate 24000 is non-empty,
and an empty capture buffer leads to nothing being sent. -/
theorem c8_nonempty_sent_witness :
    ([1] : List Int).isEmpty = false ∧
      audioCallback (fun _ => []) true 1 24000 [] = some none :=
  ⟨c8_nonempty_sent.1 (fun _ => []) true 1 24000 [1] [1] (by decide),
   c8_nonempty_sent.2 (fun _ => []) 1 24000 [] (by decide)⟩

/-- C9: calling `start_realtime_recording` while a recording is in progress
returns the "Already recording" error and returns the session state exactly
as it was — no field is mutated. -/
theorem c9_already_recording (now : Nat) (st : SessionState) (h : st.isRecording = true) :
    start_realtime_recording now st = (st, Except.error ("Already recording")) := by
  unfold start_realtime_recording
  simp [h]

/-- C9 witness: a concrete in-progress state is returned unchanged together
with the "Already recording" error. -/
theorem c9_already_recording_witness :
    start_realtime_recording 0
        { isRecording := true, currentSessionTranscript := "busy", speechActive := true,
          lastSpeechEnd := some 10, lastTranscriptionTime := some 20,
          recordingStartTime := some 30 } =
      ({ isRecording := true, currentSessionTranscript := "busy", speechActive := true,
          lastSpeechEnd := some 10, lastTranscriptionTime := some 20,
          recordingStartTime := some 30 }, Except.error ("Already recording")) :=
  c9_already_recording 0 _ rfl

/-- C10: the 16 kHz branch panics on an empty chunk (the `usize` loop bound
`len - 1` wraps and index 0 is out of range), and on any non-empty chunk
every index access is in range, so the branch returns a value. -/
theorem c10_resample16k_totality :
    resample16k ([] : List Int) = none ∧
    ∀ (mono : List Int), mono ≠ [] → mono.length < USIZE → (resample16k mono).isSome = true := by
  constructor
  · exact resample16kGo_none_of_oob [] 0 _ (by simp) (by decide)
  · intro mono h1 h2
    have hlen : 1 ≤ mono.length := List.length_pos.mpr h1
    unfold resample16k
    rw [usizeSub_one mono.length hlen h2]
    exact resample16kGo_isSome mono (mono.length - 1) 0 (by omega)

/-- C10 witness: the two-sample chunk `[5, 6]` is non-empty and its 16 kHz
resampling returns a value. -/
theorem c10_resample16k_totality_witness : (resample16k [5, 6]).isSome = true :=
  c10_resample16k_totality.2 [5, 6] (by decide) (by decide)

end Dicta
